import Mathlib

/-!
Shallow embedding of the `rust-sqlite3` safe wrapper (dckc/rust-sqlite3),
covering `src/src/core.rs`, `src/src/types.rs` and `src/src/lib.rs`.

The native engine (`mod ffi`) is declared in `src/src/lib.rs` but its body
is not part of the sources; following the specification, every engine call
is modelled by passing the engine reply (a status code, a message, a tail
offset, a column tag, ...) as an explicit argument. A Rust panic (such as
the `unwrap()` inside `error_result`) is modelled by `Option`: `none` is a
panic, `some` a normal return. C strings are modelled as `Option (List UInt8)`:
`none` is a null pointer, `some bs` the bytes up to the terminating nul.
-/

/-- Error result codes, values 1..26, from `SqliteErrorCode` in `src/src/lib.rs`. -/
inductive SqliteErrorCode where
  | SQLITE_ERROR
  | SQLITE_INTERNAL
  | SQLITE_PERM
  | SQLITE_ABORT
  | SQLITE_BUSY
  | SQLITE_LOCKED
  | SQLITE_NOMEM
  | SQLITE_READONLY
  | SQLITE_INTERRUPT
  | SQLITE_IOERR
  | SQLITE_CORRUPT
  | SQLITE_NOTFOUND
  | SQLITE_FULL
  | SQLITE_CANTOPEN
  | SQLITE_PROTOCOL
  | SQLITE_EMPTY
  | SQLITE_SCHEMA
  | SQLITE_TOOBIG
  | SQLITE_CONSTRAINT
  | SQLITE_MISMATCH
  | SQLITE_MISUSE
  | SQLITE_NOLFS
  | SQLITE_AUTH
  | SQLITE_FORMAT
  | SQLITE_RANGE
  | SQLITE_NOTADB
  deriving DecidableEq, Repr

/-- The numeric value of each error code (`SqliteErrorCode` discriminants). -/
def SqliteErrorCode.toInt : SqliteErrorCode → Int
  | .SQLITE_ERROR => 1
  | .SQLITE_INTERNAL => 2
  | .SQLITE_PERM => 3
  | .SQLITE_ABORT => 4
  | .SQLITE_BUSY => 5
  | .SQLITE_LOCKED => 6
  | .SQLITE_NOMEM => 7
  | .SQLITE_READONLY => 8
  | .SQLITE_INTERRUPT => 9
  | .SQLITE_IOERR => 10
  | .SQLITE_CORRUPT => 11
  | .SQLITE_NOTFOUND => 12
  | .SQLITE_FULL => 13
  | .SQLITE_CANTOPEN => 14
  | .SQLITE_PROTOCOL => 15
  | .SQLITE_EMPTY => 16
  | .SQLITE_SCHEMA => 17
  | .SQLITE_TOOBIG => 18
  | .SQLITE_CONSTRAINT => 19
  | .SQLITE_MISMATCH => 20
  | .SQLITE_MISUSE => 21
  | .SQLITE_NOLFS => 22
  | .SQLITE_AUTH => 23
  | .SQLITE_FORMAT => 24
  | .SQLITE_RANGE => 25
  | .SQLITE_NOTADB => 26

/-- `from_i32::<SqliteErrorCode>` (the derived `FromPrimitive` conversion):
`some` exactly on the 26 enumerated discriminants, `none` elsewhere. -/
def SqliteErrorCode.fromI32 (n : Int) : Option SqliteErrorCode :=
  if n = 1 then some .SQLITE_ERROR else
  if n = 2 then some .SQLITE_INTERNAL else
  if n = 3 then some .SQLITE_PERM else
  if n = 4 then some .SQLITE_ABORT else
  if n = 5 then some .SQLITE_BUSY else
  if n = 6 then some .SQLITE_LOCKED else
  if n = 7 then some .SQLITE_NOMEM else
  if n = 8 then some .SQLITE_READONLY else
  if n = 9 then some .SQLITE_INTERRUPT else
  if n = 10 then some .SQLITE_IOERR else
  if n = 11 then some .SQLITE_CORRUPT else
  if n = 12 then some .SQLITE_NOTFOUND else
  if n = 13 then some .SQLITE_FULL else
  if n = 14 then some .SQLITE_CANTOPEN else
  if n = 15 then some .SQLITE_PROTOCOL else
  if n = 16 then some .SQLITE_EMPTY else
  if n = 17 then some .SQLITE_SCHEMA else
  if n = 18 then some .SQLITE_TOOBIG else
  if n = 19 then some .SQLITE_CONSTRAINT else
  if n = 20 then some .SQLITE_MISMATCH else
  if n = 21 then some .SQLITE_MISUSE else
  if n = 22 then some .SQLITE_NOLFS else
  if n = 23 then some .SQLITE_AUTH else
  if n = 24 then some .SQLITE_FORMAT else
  if n = 25 then some .SQLITE_RANGE else
  if n = 26 then some .SQLITE_NOTADB else
  none

theorem errorCode_fromI32_eq_none (n : Int) (h : n < 1 ∨ 26 < n) :
    SqliteErrorCode.fromI32 n = none := by
  have hne : ∀ m : Int, 1 ≤ m → m ≤ 26 → n ≠ m := by omega
  simp only [SqliteErrorCode.fromI32,
    if_neg (hne 1 (by norm_num) (by norm_num)),
    if_neg (hne 2 (by norm_num) (by norm_num)),
    if_neg (hne 3 (by norm_num) (by norm_num)),
    if_neg (hne 4 (by norm_num) (by norm_num)),
    if_neg (hne 5 (by norm_num) (by norm_num)),
    if_neg (hne 6 (by norm_num) (by norm_num)),
    if_neg (hne 7 (by norm_num) (by norm_num)),
    if_neg (hne 8 (by norm_num) (by norm_num)),
    if_neg (hne 9 (by norm_num) (by norm_num)),
    if_neg (hne 10 (by norm_num) (by norm_num)),
    if_neg (hne 11 (by norm_num) (by norm_num)),
    if_neg (hne 12 (by norm_num) (by norm_num)),
    if_neg (hne 13 (by norm_num) (by norm_num)),
    if_neg (hne 14 (by norm_num) (by norm_num)),
    if_neg (hne 15 (by norm_num) (by norm_num)),
    if_neg (hne 16 (by norm_num) (by norm_num)),
    if_neg (hne 17 (by norm_num) (by norm_num)),
    if_neg (hne 18 (by norm_num) (by norm_num)),
    if_neg (hne 19 (by norm_num) (by norm_num)),
    if_neg (hne 20 (by norm_num) (by norm_num)),
    if_neg (hne 21 (by norm_num) (by norm_num)),
    if_neg (hne 22 (by norm_num) (by norm_num)),
    if_neg (hne 23 (by norm_num) (by norm_num)),
    if_neg (hne 24 (by norm_num) (by norm_num)),
    if_neg (hne 25 (by norm_num) (by norm_num)),
    if_neg (hne 26 (by norm_num) (by norm_num))]

/-- Column type tags, values 1..5, from `ColumnType` in `src/src/lib.rs`. -/
inductive ColumnType where
  | SQLITE_INTEGER
  | SQLITE_FLOAT
  | SQLITE_TEXT
  | SQLITE_BLOB
  | SQLITE_NULL
  deriving DecidableEq, Repr

/-- `from_i32::<ColumnType>` (the derived `FromPrimitive` conversion). -/
def ColumnType.fromI32 (n : Int) : Option ColumnType :=
  if n = 1 then some .SQLITE_INTEGER else
  if n = 2 then some .SQLITE_FLOAT else
  if n = 3 then some .SQLITE_TEXT else
  if n = 4 then some .SQLITE_BLOB else
  if n = 5 then some .SQLITE_NULL else
  none

theorem columnType_fromI32_eq_none (n : Int) (h : n < 1 ∨ 5 < n) :
    ColumnType.fromI32 n = none := by
  have hne : ∀ m : Int, 1 ≤ m → m ≤ 5 → n ≠ m := by omega
  simp only [ColumnType.fromI32,
    if_neg (hne 1 (by norm_num) (by norm_num)),
    if_neg (hne 2 (by norm_num) (by norm_num)),
    if_neg (hne 3 (by norm_num) (by norm_num)),
    if_neg (hne 4 (by norm_num) (by norm_num)),
    if_neg (hne 5 (by norm_num) (by norm_num))]

/-- Step outcomes, from the private `Step` enum in `src/src/core.rs`. -/
inductive Step where
  | SQLITE_ROW
  | SQLITE_DONE
  deriving DecidableEq, Repr

/-- `from_i32::<Step>`: `some` exactly on 100 (ROW) and 101 (DONE). -/
def Step.fromI32 (n : Int) : Option Step :=
  if n = 100 then some .SQLITE_ROW else
  if n = 101 then some .SQLITE_DONE else
  none

/-- `maybe` from `src/src/core.rs`: `Some x` when `choice` holds, else `None`. -/
def maybe {T : Type} (choice : Bool) (x : T) : Option T :=
  if choice then some x else none

/-- The error type, from `SqliteError` in `src/src/lib.rs`: a kind, a static
description, and an optional dynamic detail (bytes copied from the engine). -/
structure SqliteError where
  kind : SqliteErrorCode
  desc : String
  detail : Option (List UInt8)
  deriving DecidableEq, Repr

/-- State of a native database handle, reduced to the one observable the
wrapper reads from it: the current `sqlite3_errmsg` C string. -/
structure EngineDb where
  errmsg : Option (List UInt8)
  deriving DecidableEq, Repr

/-- `DatabaseConnection` from `src/src/core.rs`: the handle and the
`detailed` flag controlling error-detail copying. -/
structure DatabaseConnection where
  db : EngineDb
  detailed : Bool
  deriving DecidableEq, Repr

/-- `PreparedStatement` from `src/src/core.rs`; the statement's connection
handle (reachable in the source through `sqlite3_db_handle`) and its own
`detailed` flag. -/
structure PreparedStatement where
  db : EngineDb
  detailed : Bool
  deriving DecidableEq, Repr

/-- `charstar_str` from `src/src/core.rs`: `None` for a null pointer,
otherwise the bytes passed through `str::from_utf8_unchecked` - that is,
unchanged and with no validity check of any kind. -/
def charstar_str (utf_bytes : Option (List UInt8)) : Option (List UInt8) :=
  match utf_bytes with
  | none => none
  | some bs => some bs

/-- `str_charstar` from `src/src/core.rs`:
`CString::new(s).unwrap_or(CString::new("").unwrap())` - a string holding an
interior nul byte is silently replaced by the empty C string. -/
def str_charstar (s : List UInt8) : List UInt8 :=
  if s.contains 0 then [] else s

/-- `DatabaseConnection::_errmsg`: `charstar_str(sqlite3_errmsg(db)).unwrap_or("")`. -/
def DatabaseConnection.underscore_errmsg (db : EngineDb) : List UInt8 :=
  (charstar_str db.errmsg).getD []

/-- `DatabaseConnection::errmsg`, from `src/src/core.rs`. -/
def DatabaseConnection.errmsg (conn : DatabaseConnection) : List UInt8 :=
  DatabaseConnection.underscore_errmsg conn.db

/-- `error_result` from `src/src/core.rs`. The source unwraps
`from_i32::<SqliteErrorCode>(result)`, panicking when the code is not one of
the 26 enumerated discriminants; the panic is modelled by `none`. -/
def error_result (result : Int) (desc : String) (detail : Option (List UInt8)) :
    Option SqliteError :=
  (SqliteErrorCode.fromI32 result).map (fun k => { kind := k, desc := desc, detail := detail })

/-- `decode_result` from `src/src/core.rs`: `Ok(())` on `SQLITE_OK` (0), else
an `Err` built by `error_result` with the detail fetched from the given
handle; `none` models the panic inside `error_result`. -/
def decode_result (result : Int) (desc : String) (detail_db : Option EngineDb) :
    Option (Except SqliteError Unit) :=
  if result = 0 then some (Except.ok ())
  else (error_result result desc (detail_db.map DatabaseConnection.underscore_errmsg)).map Except.error

/-- `PreparedStatement::detail_db` from `src/src/core.rs`. -/
def PreparedStatement.detail_db (st : PreparedStatement) : Option EngineDb :=
  if st.detailed then some st.db else none

/-- `PreparedStatement::get_detail` from `src/src/core.rs`. -/
def PreparedStatement.get_detail (st : PreparedStatement) : Option (List UInt8) :=
  (PreparedStatement.detail_db st).map DatabaseConnection.underscore_errmsg

/-- Outcome of `ResultSet::step` in `src/src/core.rs`: `row` models
`Ok(Some(ResultRow ...))` (a row is available), `done` models `Ok(None)`
(no more rows), `err e` models `Err(e)`. -/
inductive StepOutcome where
  | row
  | done
  | err (e : SqliteError)
  deriving DecidableEq, Repr

/-- `ResultSet::step` from `src/src/core.rs`, as a function of the engine
reply to `sqlite3_step`; the outer `none` models the panic reachable through
`error_result`. -/
def ResultSet.step (st : PreparedStatement) (result : Int) : Option StepOutcome :=
  match Step.fromI32 result with
  | some Step.SQLITE_ROW => some StepOutcome.row
  | some Step.SQLITE_DONE => some StepOutcome.done
  | none => (error_result result "step" (PreparedStatement.get_detail st)).map StepOutcome.err

/-- Outcome of `DatabaseConnection::new` in `src/src/core.rs`. In the source,
the error branch calls `sqlite3_close(db)` on the possibly allocated handle
before returning `Err`; `closedWithError` records exactly that branch.
`panicked` models the panic reachable through `error_result`, which returns
without closing the handle. -/
inductive NewOutcome where
  | opened (conn : DatabaseConnection)
  | closedWithError (e : SqliteError)
  | panicked
  deriving DecidableEq, Repr

/-- `DatabaseConnection::new` from `src/src/core.rs`, as a function of the
`Access::open` reply: the returned status code and the state of the handle
deposited in the out-slot. Note the source always passes `Some(db)` to
`decode_result`, so the error detail is always a copy of the engine message. -/
def DatabaseConnection.new (status : Int) (db : EngineDb) : NewOutcome :=
  match decode_result status "sqlite3_open_v2" (some db) with
  | some (Except.ok _) => NewOutcome.opened { db := db, detailed := true }
  | some (Except.error e) => NewOutcome.closedWithError e
  | none => NewOutcome.panicked

/-- The `SqliteError` produced by `impl From<NulError> for SqliteError` in
`src/src/core.rs`. -/
def nulByteError : SqliteError :=
  { kind := SqliteErrorCode.SQLITE_MISUSE
  , desc := "Sql string contained an internal 0 byte"
  , detail := none }

/-- Outcome of `DatabaseConnection::exec` in `src/src/core.rs`:
`earlyError` models the `try!(CString::new(..))` path that returns before
any engine call; `engineCalled` records the SQL bytes handed to
`sqlite3_exec` together with the decoded engine status. -/
inductive ExecOutcome where
  | earlyError (e : SqliteError)
  | engineCalled (sql : List UInt8) (res : Option (Except SqliteError Unit))

/-- `DatabaseConnection::exec` from `src/src/core.rs`, as a function of the
engine status replied by `sqlite3_exec` when it is reached. -/
def DatabaseConnection.exec (conn : DatabaseConnection) (sql : List UInt8)
    (engineStatus : Int) : ExecOutcome :=
  if sql.contains 0 then ExecOutcome.earlyError nulByteError
  else ExecOutcome.engineCalled sql
    (decode_result engineStatus "sqlite3_exec" (maybe conn.detailed conn.db))

/-- The arguments `PreparedStatement::bind_text` hands to
`sqlite3_bind_text`: the parameter index, the bytes at the passed pointer,
and the passed length. -/
structure BindTextCall where
  ix : Nat
  data : List UInt8
  len : Nat
  deriving DecidableEq, Repr

/-- `PreparedStatement::bind_text` from `src/src/core.rs`: the engine is
called unconditionally, with `str_charstar(value)` as the data pointer and
`value.len()` as the length; the second component is the decoded engine
status. -/
def PreparedStatement.bind_text (st : PreparedStatement) (i : Nat)
    (value : List UInt8) (engineStatus : Int) :
    BindTextCall × Option (Except SqliteError Unit) :=
  ({ ix := i, data := str_charstar value, len := value.length },
   decode_result engineStatus "sqlite3_bind_text" (PreparedStatement.detail_db st))

/-- Engine reply to `sqlite3_prepare_v2`: the status code and the distance
from the start of the SQL buffer to the reported tail pointer (the number of
bytes consumed by compilation). -/
structure PrepareReply where
  status : Int
  consumed : Nat
  deriving DecidableEq, Repr

/-- `DatabaseConnection::prepare_with_offset` from `src/src/core.rs`; on
success the source computes `offset = tail - z_sql`, i.e. the reply's
`consumed` distance. `none` models the panic reachable through
`error_result`. -/
def DatabaseConnection.prepare_with_offset (conn : DatabaseConnection)
    (reply : PrepareReply) :
    Option (Except SqliteError (PreparedStatement × Nat)) :=
  match decode_result reply.status "sqlite3_prepare_v2" (maybe conn.detailed conn.db) with
  | some (Except.ok _) =>
      some (Except.ok ({ db := conn.db, detailed := conn.detailed }, reply.consumed))
  | some (Except.error e) => some (Except.error e)
  | none => none

/-- `DatabaseConnection::prepare` from `src/src/core.rs`: forwards to
`prepare_with_offset` and drops the offset component. -/
def DatabaseConnection.prepare (conn : DatabaseConnection) (reply : PrepareReply) :
    Option (Except SqliteError PreparedStatement) :=
  match DatabaseConnection.prepare_with_offset conn reply with
  | some (Except.ok (cur, _)) => some (Except.ok cur)
  | some (Except.error e) => some (Except.error e)
  | none => none

/-- A result row, reduced to the engine observables the wrapper reads:
`sqlite3_column_count`, `sqlite3_column_name` (a possibly null C string per
index) and `sqlite3_column_type` (a tag per index). -/
structure ResultRow where
  colCount : Nat
  colName : Nat → Option (List UInt8)
  colTag : Nat → Int

/-- `ResultRow::with_column_name` from `src/src/core.rs`. -/
def ResultRow.with_column_name {T : Type} (row : ResultRow) (i : Nat)
    (d : T) (f : List UInt8 → T) : T :=
  match charstar_str (row.colName i) with
  | some name => f name
  | none => d

/-- `ResultRow::column_type` from `src/src/core.rs`:
`from_i32::<ColumnType>(tag).unwrap_or(SQLITE_NULL)`. -/
def ResultRow.column_type (row : ResultRow) (col : Nat) : ColumnType :=
  (ColumnType.fromI32 (row.colTag col)).getD ColumnType.SQLITE_NULL

/-- The action performed by `impl ToSql for Option<T>` in `src/src/types.rs`:
either `s.bind_null(ix)` or a delegation `x.to_sql(s, ix)` to the inner
binder; the delegation records the contained value and position. -/
inductive BindAction (T : Type) where
  | bindNullAt (ix : Nat)
  | delegate (x : T) (ix : Nat)
  deriving DecidableEq, Repr

/-- `Option<T>::to_sql` from `src/src/types.rs`: clone, then match. -/
def optionToSql {T : Type} (v : Option T) (ix : Nat) : BindAction T :=
  match v with
  | some x => BindAction.delegate x ix
  | none => BindAction.bindNullAt ix

/-- `Option<T>::from_sql` from `src/src/types.rs`, parametrised by the inner
extractor `fromT` standing for the trait method `FromSql::from_sql` of `T`. -/
def optionFromSql {T : Type} (fromT : ResultRow → Nat → Except SqliteError T)
    (row : ResultRow) (col : Nat) : Except SqliteError (Option T) :=
  match ResultRow.column_type row col with
  | ColumnType.SQLITE_NULL => Except.ok none
  | _ => (fromT row col).map some

/-- `SQLITE_TIME_FMT` from `src/src/types.rs`. -/
def SQLITE_TIME_FMT : String := "%F %T"

/-- Modelled from the spec: the external time crate's broken-down time value
(the Timestamp of the spec); only parse success or failure matters to the
claims, so the fields are irrelevant and one representative field is kept. -/
structure Tm where
  sec : Int
  deriving DecidableEq, Repr

/-- Modelled from the spec: `SqliteError::new`, invoked by
`src/src/types.rs` but not defined under the sources; per the spec, a
type-mismatch parse failure yields an error of the given kind carrying the
given dynamic message as the detail string. -/
def SqliteError.new (kind : SqliteErrorCode) (msg : List UInt8)
    (_extra : Option (List UInt8)) : SqliteError :=
  { kind := kind, desc := "type mismatch", detail := some msg }

/-- The bytes of the literal `"null"` used by the null-column branch of
`impl FromSql for time::Tm` in `src/src/types.rs`. -/
def nullLiteralBytes : List UInt8 := [110, 117, 108, 108]

/-- `impl FromSql for time::Tm` from `src/src/types.rs`, parametrised by the
external parser `strptime` (its error carries the parser's message) and by
the `column_text` of the addressed column. -/
def tmFromSql (strptime : List UInt8 → String → Except (List UInt8) Tm)
    (columnText : Option (List UInt8)) : Except SqliteError Tm :=
  match columnText with
  | none => Except.error (SqliteError.new SqliteErrorCode.SQLITE_MISMATCH nullLiteralBytes none)
  | some txt =>
    match strptime txt SQLITE_TIME_FMT with
    | Except.ok tm => Except.ok tm
    | Except.error msg =>
        Except.error (SqliteError.new SqliteErrorCode.SQLITE_MISMATCH msg none)

/-- Modelled from the spec: the external time crate's seconds-based time
value, argument of `impl ToSql for time::Timespec`. -/
structure Timespec where
  sec : Int
  deriving DecidableEq, Repr

/-- Outcome of `impl ToSql for time::Timespec` in `src/src/types.rs`:
either the serialized text is handed to `bind_text` at the given position,
or formatting failed and a mismatch error is returned. -/
inductive TimespecBindOutcome where
  | bindText (ix : Nat) (text : List UInt8)
  | err (e : SqliteError)
  deriving DecidableEq, Repr

/-- `impl ToSql for time::Timespec` from `src/src/types.rs`, parametrised by
the external `time::at_utc` and `strftime`. -/
def timespecToSql (at_utc : Timespec → Tm)
    (strftime : Tm → String → Except (List UInt8) (List UInt8))
    (v : Timespec) (ix : Nat) : TimespecBindOutcome :=
  match strftime (at_utc v) SQLITE_TIME_FMT with
  | Except.ok text => TimespecBindOutcome.bindText ix text
  | Except.error oops =>
      TimespecBindOutcome.err (SqliteError.new SqliteErrorCode.SQLITE_MISMATCH oops none)

/-- Is a byte a UTF-8 continuation byte (10xxxxxx)? -/
def isContinuationByte (b : UInt8) : Bool :=
  decide (128 ≤ b.toNat) && decide (b.toNat ≤ 191)

/-- A standard UTF-8 validity check over byte lists, used to state what
"valid text" means for the bytes behind a C string. -/
def validUtf8 : List UInt8 → Bool
  | [] => true
  | a :: l =>
    if a.toNat ≤ 127 then validUtf8 l else
    match l with
    | [] => false
    | b :: l2 =>
      if 194 ≤ a.toNat ∧ a.toNat ≤ 223 then isContinuationByte b && validUtf8 l2 else
      match l2 with
      | [] => false
      | c :: l3 =>
        if a.toNat = 224 then
          decide (160 ≤ b.toNat) && decide (b.toNat ≤ 191) && isContinuationByte c && validUtf8 l3
        else if (225 ≤ a.toNat ∧ a.toNat ≤ 236) ∨ a.toNat = 238 ∨ a.toNat = 239 then
          isContinuationByte b && isContinuationByte c && validUtf8 l3
        else if a.toNat = 237 then
          decide (128 ≤ b.toNat) && decide (b.toNat ≤ 159) && isContinuationByte c && validUtf8 l3
        else
          match l3 with
          | [] => false
          | d :: l4 =>
            if a.toNat = 240 then
              decide (144 ≤ b.toNat) && decide (b.toNat ≤ 191) &&
                isContinuationByte c && isContinuationByte d && validUtf8 l4
            else if 241 ≤ a.toNat ∧ a.toNat ≤ 243 then
              isContinuationByte b && isContinuationByte c &&
                isContinuationByte d && validUtf8 l4
            else if a.toNat = 244 then
              decide (128 ≤ b.toNat) && decide (b.toNat ≤ 143) &&
                isContinuationByte c && isContinuationByte d && validUtf8 l4
            else
              false

/-- Claim C1: for every call to `ResultSet::step`, under the specified
engine step replies (ROW = 100, DONE = 101, or an error code of the
enumerated 1..26 space), the outcome is exactly: `Ok(Some(row))` on 100,
`Ok(None)` on 101, and `Err` with a typed `SqliteError` otherwise, whose
detail is a copy of the engine message exactly when detail-copying is
enabled. -/
theorem step_outcome (st : PreparedStatement) (r : Int)
    (h : r = 100 ∨ r = 101 ∨ (1 ≤ r ∧ r ≤ 26)) :
    (r = 100 → ResultSet.step st r = some StepOutcome.row) ∧
    (r = 101 → ResultSet.step st r = some StepOutcome.done) ∧
    (r ≠ 100 → r ≠ 101 →
      ∃ k, SqliteErrorCode.fromI32 r = some k ∧
        ResultSet.step st r =
          some (StepOutcome.err
            { kind := k, desc := "step", detail := PreparedStatement.get_detail st }) ∧
        (st.detailed = true →
          PreparedStatement.get_detail st =
            some (DatabaseConnection.underscore_errmsg st.db)) ∧
        (st.detailed = false → PreparedStatement.get_detail st = none)) := by
  have hdet1 : st.detailed = true →
      PreparedStatement.get_detail st =
        some (DatabaseConnection.underscore_errmsg st.db) := by
    intro hd
    simp [PreparedStatement.get_detail, PreparedStatement.detail_db, hd]
  have hdet0 : st.detailed = false → PreparedStatement.get_detail st = none := by
    intro hd
    simp [PreparedStatement.get_detail, PreparedStatement.detail_db, hd]
  refine ⟨fun hr => ?_, fun hr => ?_, fun h100 h101 => ?_⟩
  · subst hr; rfl
  · subst hr; rfl
  · have hr : 1 ≤ r ∧ r ≤ 26 := by omega
    obtain ⟨h1, h2⟩ := hr
    interval_cases r <;> exact ⟨_, rfl, rfl, hdet1, hdet0⟩

/-- Witness for C1: a statement with detail-copying enabled and an engine
message, stepped with the BUSY code 5, yields the typed error with the
copied detail. -/
theorem step_outcome_witness :
    ResultSet.step { db := { errmsg := some [108, 111, 99, 107] }, detailed := true } 5 =
      some (StepOutcome.err
        { kind := SqliteErrorCode.SQLITE_BUSY, desc := "step",
          detail := some [108, 111, 99, 107] }) := by
  obtain ⟨k, hk, hstep, -, -⟩ :=
    (step_outcome { db := { errmsg := some [108, 111, 99, 107] }, detailed := true } 5
      (by omega)).2.2 (by omega) (by omega)
  have hk2 : some SqliteErrorCode.SQLITE_BUSY = some k := hk
  cases hk2
  exact hstep

/-- Counterexample for C3: status 27 is a non-zero engine code (the engine
log level NOTICE, and a value any misbehaving engine call could return), yet
neither `decode_result` nor `error_result` yields a typed `SqliteError`
there - both panic (modelled by `none`), as the Panic section of
`decode_result`'s own documentation announces. -/
theorem decode_result_27_panics :
    (27 : Int) ≠ 0 ∧
    decode_result 27 "sqlite3_exec" none = none ∧
    error_result 27 "step" none = none :=
  ⟨by omega, rfl, rfl⟩

/-- Claim C3 (amended): decoding a non-OK status yields a typed
`SqliteError` exactly for the 26 enumerated standard codes 1..26; for every
other non-zero status, `decode_result`/`error_result` panic instead of
returning, and a zero status decodes to `Ok`. -/
theorem decode_result_amended (r : Int) (desc : String) (db : Option EngineDb) :
    (1 ≤ r ∧ r ≤ 26 →
      ∃ k, SqliteErrorCode.fromI32 r = some k ∧
        decode_result r desc db =
          some (Except.error
            { kind := k, desc := desc,
              detail := db.map DatabaseConnection.underscore_errmsg }) ∧
        error_result r desc (db.map DatabaseConnection.underscore_errmsg) =
          some { kind := k, desc := desc,
                 detail := db.map DatabaseConnection.underscore_errmsg }) ∧
    (r ≠ 0 → r < 1 ∨ 26 < r →
      decode_result r desc db = none ∧
      error_result r desc (db.map DatabaseConnection.underscore_errmsg) = none) ∧
    (r = 0 → decode_result r desc db = some (Except.ok ())) := by
  refine ⟨fun hr => ?_, fun h0 hout => ?_, fun h0 => ?_⟩
  · obtain ⟨h1, h2⟩ := hr
    interval_cases r <;> exact ⟨_, rfl, rfl, rfl⟩
  · have hnone := errorCode_fromI32_eq_none r hout
    constructor
    · simp [decode_result, error_result, h0, hnone]
    · simp [error_result, hnone]
  · subst h0; rfl

/-- Witness for C3 (amended): code 21 (MISUSE) decodes to the typed error,
while code 102 makes the decoder panic. -/
theorem decode_result_amended_witness :
    decode_result 21 "sqlite3_bind_text" none =
      some (Except.error
        { kind := SqliteErrorCode.SQLITE_MISUSE, desc := "sqlite3_bind_text",
          detail := none }) ∧
    decode_result 102 "step" none = none := by
  constructor
  · obtain ⟨k, hk, hd, -⟩ :=
      (decode_result_amended 21 "sqlite3_bind_text" none).1 (by omega)
    have hk2 : some SqliteErrorCode.SQLITE_MISUSE = some k := hk
    cases hk2
    exact hd
  · exact ((decode_result_amended 102 "step" none).2.1 (by omega) (by omega)).1

/-- Claim C4: for every `Access::open` reply within the specified native
status space (0 for success, else one of the enumerated codes 1..26),
`DatabaseConnection::new` either wraps the handle on success, or closes the
deposited handle before returning the decoded error carrying a copy of the
engine's error message; in neither case does it leak by panicking past the
close call. -/
theorem new_no_leak (status : Int) (db : EngineDb)
    (h : status = 0 ∨ (1 ≤ status ∧ status ≤ 26)) :
    (status = 0 →
      DatabaseConnection.new status db = NewOutcome.opened { db := db, detailed := true }) ∧
    (status ≠ 0 →
      ∃ k, SqliteErrorCode.fromI32 status = some k ∧
        DatabaseConnection.new status db =
          NewOutcome.closedWithError
            { kind := k, desc := "sqlite3_open_v2",
              detail := some (DatabaseConnection.underscore_errmsg db) }) ∧
    DatabaseConnection.new status db ≠ NewOutcome.panicked := by
  rcases h with h0 | ⟨h1, h2⟩
  · subst h0
    exact ⟨fun _ => rfl, fun hne => absurd rfl hne,
      fun hcon => NewOutcome.noConfusion hcon⟩
  · interval_cases status <;>
      exact ⟨fun h0 => absurd h0 (by omega), fun _ => ⟨_, rfl, rfl⟩,
        fun hcon => NewOutcome.noConfusion hcon⟩

/-- Witness for C4: an open reply of CANTOPEN (14) with an engine message
makes `new` close the handle and return the typed error with the message
copied as detail. -/
theorem new_no_leak_witness :
    DatabaseConnection.new 14 { errmsg := some [101] } =
      NewOutcome.closedWithError
        { kind := SqliteErrorCode.SQLITE_CANTOPEN, desc := "sqlite3_open_v2",
          detail := some [101] } := by
  obtain ⟨-, h2, -⟩ := new_no_leak 14 { errmsg := some [101] } (by omega)
  obtain ⟨k, hk, hval⟩ := h2 (by omega)
  have hk2 : some SqliteErrorCode.SQLITE_CANTOPEN = some k := hk
  cases hk2
  exact hval

/-- Claim C2, evaluated at the failing input: binding the text bytes
"a\x00b" does NOT fail before the engine call - `bind_text` invokes the
engine unconditionally, handing it the empty C string produced by
`str_charstar`'s `unwrap_or` fallback together with the ORIGINAL length 3,
i.e. a silently substituted string; only `exec` takes the early
string-encoding error path the claim describes. -/
theorem bind_text_nul_eval :
    (PreparedStatement.bind_text { db := { errmsg := none }, detailed := true }
        1 [97, 0, 98] 0).1 = { ix := 1, data := [], len := 3 } ∧
    DatabaseConnection.exec { db := { errmsg := none }, detailed := true }
        [97, 0, 98] 0 = ExecOutcome.earlyError nulByteError ∧
    nulByteError =
      { kind := SqliteErrorCode.SQLITE_MISUSE,
        desc := "Sql string contained an internal 0 byte", detail := none } :=
  ⟨rfl, rfl, rfl⟩

/-- Claim C5: for every inner marshaller and every optional value, binding
binds null at the given position exactly when the value is `None` and
otherwise delegates the contained value to the inner binder; extraction
returns `None` exactly when `column_type` reports `SQLITE_NULL`, and
otherwise delegates to the inner extractor and wraps the result in `Some`. -/
theorem option_marshalling {T : Type}
    (fromT : ResultRow → Nat → Except SqliteError T)
    (row : ResultRow) (col : Nat) (v : Option T) (ix : Nat) :
    (optionToSql v ix = BindAction.bindNullAt ix ↔ v = none) ∧
    (∀ x, v = some x → optionToSql v ix = BindAction.delegate x ix) ∧
    (optionFromSql fromT row col = Except.ok none ↔
      ResultRow.column_type row col = ColumnType.SQLITE_NULL) ∧
    (ResultRow.column_type row col ≠ ColumnType.SQLITE_NULL →
      optionFromSql fromT row col = (fromT row col).map some) := by
  refine ⟨?_, ?_, ?_, ?_⟩
  · cases v <;> simp [optionToSql]
  · intro x hx; subst hx; rfl
  · constructor
    · intro hok
      by_contra hne
      have hdel : optionFromSql fromT row col = (fromT row col).map some := by
        unfold optionFromSql
        cases hct : ResultRow.column_type row col <;> simp_all
      rw [hdel] at hok
      cases hft : fromT row col <;> simp [hft, Except.map] at hok
    · intro hnull
      unfold optionFromSql
      rw [hnull]
  · intro hne
    unfold optionFromSql
    cases hct : ResultRow.column_type row col <;> simp_all

/-- Witness for C5: a row whose column tag is 5 (NULL) extracts to `None`,
and a present value delegates to the inner binder. -/
theorem option_marshalling_witness :
    optionFromSql (fun _ _ => Except.ok (3 : Nat))
      { colCount := 1, colName := fun _ => none, colTag := fun _ => 5 } 0 =
      Except.ok none ∧
    optionToSql (some (5 : Nat)) 2 = BindAction.delegate 5 2 := by
  have h := option_marshalling (fun _ _ => Except.ok (3 : Nat))
    { colCount := 1, colName := fun _ => none, colTag := fun _ => 5 } 0
    (some (5 : Nat)) 2
  exact ⟨h.2.2.1.mpr rfl, h.2.1 5 rfl⟩

/-- Claim C6: timestamps are serialized and deserialized as text in the
single fixed format "%F %T" (YYYY-MM-DD HH:MM:SS) - both directions use
`SQLITE_TIME_FMT` - and every column text the parser rejects in this format
extracts to a type-mismatch error of kind `SQLITE_MISMATCH` carrying the
parser's message as the error's detail string. -/
theorem timestamp_text_format
    (strptime : List UInt8 → String → Except (List UInt8) Tm)
    (txt msg : List UInt8)
    (h : strptime txt SQLITE_TIME_FMT = Except.error msg) :
    SQLITE_TIME_FMT = "%F %T" ∧
    tmFromSql strptime (some txt) =
      Except.error
        { kind := SqliteErrorCode.SQLITE_MISMATCH, desc := "type mismatch",
          detail := some msg } ∧
    (∀ (at_utc : Timespec → Tm)
        (strftime : Tm → String → Except (List UInt8) (List UInt8))
        (v : Timespec) (ix : Nat) (text : List UInt8),
      strftime (at_utc v) SQLITE_TIME_FMT = Except.ok text →
        timespecToSql at_utc strftime v ix = TimespecBindOutcome.bindText ix text) := by
  refine ⟨rfl, ?_, ?_⟩
  · simp only [tmFromSql, h, SqliteError.new]
  · intro at_utc strftime v ix text hfmt
    simp only [timespecToSql, hfmt]

/-- Witness for C6: a parser that rejects every input with message byte 120
makes extraction of the text byte 49 return the MISMATCH error with that
message as detail. -/
theorem timestamp_text_format_witness :
    tmFromSql (fun _ _ => Except.error [120]) (some [49]) =
      Except.error
        { kind := SqliteErrorCode.SQLITE_MISMATCH, desc := "type mismatch",
          detail := some [120] } :=
  (timestamp_text_format (fun _ _ => Except.error [120]) [49] [120] rfl).2.1

/-- Claim C7, evaluated at the failing input: the engine message byte 0xFF
is not valid UTF-8, yet `errmsg` returns those very bytes instead of the
empty string - `charstar_str` reinterprets the bytes with no validity check
(`str::from_utf8_unchecked`), contradicting its caller's documented
contract of returning "" for ill-formed text; only a null message pointer
yields "". -/
theorem errmsg_invalid_utf8_eval :
    validUtf8 [255] = false ∧
    DatabaseConnection.errmsg { db := { errmsg := some [255] }, detailed := true } = [255] ∧
    ([255] : List UInt8) ≠ [] ∧
    DatabaseConnection.errmsg { db := { errmsg := none }, detailed := true } = [] ∧
    DatabaseConnection.errmsg { db := { errmsg := some [104, 105] }, detailed := true } =
      [104, 105] := by
  refine ⟨?_, rfl, ?_, rfl, rfl⟩
  · rfl
  · simp

/-- Claim C8: for every engine reply, `prepare` succeeds exactly when
`prepare_with_offset` succeeds and yields the same statement; when the
engine accepts the SQL, `prepare_with_offset` additionally returns the
number of bytes consumed by compilation, i.e. the offset from the start of
the input to the engine-reported tail pointer. -/
theorem prepare_offset_agreement (conn : DatabaseConnection) (reply : PrepareReply) :
    (reply.status = 0 →
      DatabaseConnection.prepare_with_offset conn reply =
        some (Except.ok ({ db := conn.db, detailed := conn.detailed }, reply.consumed)) ∧
      DatabaseConnection.prepare conn reply =
        some (Except.ok { db := conn.db, detailed := conn.detailed })) ∧
    (∀ st off, DatabaseConnection.prepare_with_offset conn reply = some (Except.ok (st, off)) →
      DatabaseConnection.prepare conn reply = some (Except.ok st) ∧ off = reply.consumed) ∧
    (∀ st, DatabaseConnection.prepare conn reply = some (Except.ok st) →
      DatabaseConnection.prepare_with_offset conn reply =
        some (Except.ok (st, reply.consumed))) ∧
    (∀ e, DatabaseConnection.prepare_with_offset conn reply = some (Except.error e) ↔
      DatabaseConnection.prepare conn reply = some (Except.error e)) := by
  refine ⟨fun h0 => ?_, ?_, ?_, ?_⟩
  · have hd : decode_result reply.status "sqlite3_prepare_v2" (maybe conn.detailed conn.db) =
        some (Except.ok ()) := by rw [h0]; rfl
    constructor
    · simp [DatabaseConnection.prepare_with_offset, hd]
    · simp [DatabaseConnection.prepare, DatabaseConnection.prepare_with_offset, hd]
  · intro st off hok
    rcases hd : decode_result reply.status "sqlite3_prepare_v2" (maybe conn.detailed conn.db)
      with - | e2
    · simp [DatabaseConnection.prepare_with_offset, hd] at hok
    · rcases e2 with e3 | u
      · simp [DatabaseConnection.prepare_with_offset, hd] at hok
      · simp [DatabaseConnection.prepare_with_offset, hd] at hok
        obtain ⟨hst, hoff⟩ := hok
        constructor
        · simp [DatabaseConnection.prepare, DatabaseConnection.prepare_with_offset, hd, hst]
        · omega
  · intro st hok
    rcases hd : decode_result reply.status "sqlite3_prepare_v2" (maybe conn.detailed conn.db)
      with - | e2
    · simp [DatabaseConnection.prepare, DatabaseConnection.prepare_with_offset, hd] at hok
    · rcases e2 with e3 | u
      · simp [DatabaseConnection.prepare, DatabaseConnection.prepare_with_offset, hd] at hok
      · simp [DatabaseConnection.prepare, DatabaseConnection.prepare_with_offset, hd] at hok
        simp [DatabaseConnection.prepare_with_offset, hd, hok]
  · intro e
    rcases hd : decode_result reply.status "sqlite3_prepare_v2" (maybe conn.detailed conn.db)
      with - | e2
    · simp [DatabaseConnection.prepare, DatabaseConnection.prepare_with_offset, hd]
    · rcases e2 with e3 | u
      · simp [DatabaseConnection.prepare, DatabaseConnection.prepare_with_offset, hd]
      · simp [DatabaseConnection.prepare, DatabaseConnection.prepare_with_offset, hd]

/-- Witness for C8: an accepting engine reply consuming 7 bytes yields the
statement together with offset 7, and `prepare` the same statement. -/
theorem prepare_offset_agreement_witness :
    DatabaseConnection.prepare_with_offset { db := { errmsg := none }, detailed := true }
        { status := 0, consumed := 7 } =
      some (Except.ok ({ db := { errmsg := none }, detailed := true }, 7)) ∧
    DatabaseConnection.prepare { db := { errmsg := none }, detailed := true }
        { status := 0, consumed := 7 } =
      some (Except.ok { db := { errmsg := none }, detailed := true }) :=
  (prepare_offset_agreement { db := { errmsg := none }, detailed := true }
    { status := 0, consumed := 7 }).1 rfl

/-- Claim C9: under the engine contract that `sqlite3_column_name` reports a
null pointer for any index at or beyond `column_count`, `with_column_name`
at such an index returns the default without invoking the function; more
generally the function is applied (to the column name) only when the engine
reports a non-null name for the index. -/
theorem with_column_name_default {T : Type} (row : ResultRow) (i : Nat)
    (d : T) (f : List UInt8 → T)
    (habi : ∀ j, row.colCount ≤ j → row.colName j = none)
    (hi : row.colCount ≤ i) :
    ResultRow.with_column_name row i d f = d ∧
    (∀ (row2 : ResultRow) (i2 : Nat), row2.colName i2 = none →
      ResultRow.with_column_name row2 i2 d f = d) ∧
    (∀ (row2 : ResultRow) (i2 : Nat) (nm : List UInt8), row2.colName i2 = some nm →
      ResultRow.with_column_name row2 i2 d f = f nm) := by
  refine ⟨?_, ?_, ?_⟩
  · simp [ResultRow.with_column_name, habi i hi, charstar_str]
  · intro row2 i2 hnull
    simp [ResultRow.with_column_name, hnull, charstar_str]
  · intro row2 i2 nm hname
    simp [ResultRow.with_column_name, hname, charstar_str]

/-- Witness for C9: a single-column row queried at index 3 returns the
default 0 for every function, here the constant 1 function. -/
theorem with_column_name_default_witness :
    ResultRow.with_column_name
      { colCount := 1, colName := fun _ => none, colTag := fun _ => 1 } 3
      (0 : Nat) (fun _ => 1) = 0 :=
  (with_column_name_default
    { colCount := 1, colName := fun _ => none, colTag := fun _ => 1 } 3
    (0 : Nat) (fun _ => 1) (fun _ _ => rfl) (by decide)).1

/-- Claim C10: `column_type` is total - it returns a `ColumnType` for every
engine reply and every index - and whenever the engine's reported tag is
not one of the five known tags 1..5 (as for a nonexistent column), it
returns `SQLITE_NULL`; a known tag decodes to its own variant. -/
theorem column_type_total (row : ResultRow) (col : Nat) :
    (∀ k, ColumnType.fromI32 (row.colTag col) = some k →
      ResultRow.column_type row col = k) ∧
    (row.colTag col < 1 ∨ 5 < row.colTag col →
      ResultRow.column_type row col = ColumnType.SQLITE_NULL) := by
  constructor
  · intro k hk
    simp [ResultRow.column_type, hk]
  · intro h
    simp [ResultRow.column_type, columnType_fromI32_eq_none (row.colTag col) h]

/-- Witness for C10: a row whose engine tag is 7 (not a known tag) reports
`SQLITE_NULL`. -/
theorem column_type_total_witness :
    ResultRow.column_type
      { colCount := 0, colName := fun _ => none, colTag := fun _ => 7 } 0 =
      ColumnType.SQLITE_NULL :=
  (column_type_total
    { colCount := 0, colName := fun _ => none, colTag := fun _ => 7 } 0).2 (by decide)
